import Mathlib

/-
Verification development for the Digital-Twins flood-pipeline repository.

Each Python module of the excerpt is shallowly embedded below: pure helpers
become Lean functions, database/filesystem/network interactions are passed in
as explicit parameters (the database engine, HTTP fetches, geometric library
primitives and the directory listing are external interfaces of the program),
and fallible code returns Except/Option.  Machine floats only ever hold small
dyadic values in the fragments under study, so coordinates are modelled as
exact rationals.
-/

set_option maxHeartbeats 1000000

/- ---------------------------------------------------------------------------
Utility layer: structural models of the Python string operations used by the
sources (str.split(sep), pathlib stem/suffix, the two glob patterns of
bg_flood_model.py).  All are structurally recursive so that concrete instances
evaluate inside the kernel.
--------------------------------------------------------------------------- -/

/-- Python str.split(sep) over the underlying character list: splits at every
occurrence of the separator, keeping empty pieces (so the result is never
empty). -/
def charListSplit (sep : Char) : List Char → List (List Char)
  | [] => [[]]
  | c :: rest =>
    let r := charListSplit sep rest
    if c = sep then [] :: r
    else
      match r with
      | [] => [[c]]
      | h :: t => (c :: h) :: t

/-- Python str.split(sep) on strings (sep a single character, as in the
sources: split('_'), split(' ')). -/
def strSplitOnChar (sep : Char) (s : String) : List String :=
  (charListSplit sep s.data).map String.mk

/-- Index of the last occurrence of a character in a character list. -/
def lastIdxOf (c : Char) (cs : List Char) : Option Nat :=
  (cs.foldl (fun acc ch => (acc.1 + 1, if ch = c then some acc.1 else acc.2))
    ((0 : Nat), (none : Option Nat))).2

/-- pathlib stem/suffix pair: the suffix is the final dot-segment of the name
when the last dot sits strictly inside the name (a leading or trailing dot
yields no suffix), the stem is the rest. -/
def path_stem_suffix (s : String) : String × String :=
  let cs := s.data
  match lastIdxOf '.' cs with
  | some i =>
    if 0 < i ∧ i + 1 < cs.length then (String.mk (cs.take i), String.mk (cs.drop i))
    else (s, "")
  | none => (s, "")

/-- Whether a character list ends with the given suffix. -/
def listEndsWith (suf l : List Char) : Bool :=
  (l.drop (l.length - suf.length)) == suf

/-- String.intercalate, restated structurally so concrete instances reduce. -/
def strIntercalate (sep : String) : List String → String
  | [] => ""
  | [a] => a
  | a :: b :: rest => a ++ sep ++ strIntercalate sep (b :: rest)

/- ---------------------------------------------------------------------------
src/flood_model/bg_flood_model.py
--------------------------------------------------------------------------- -/

/-- CalledProcessError raised by subprocess.run(..., check=True) on a non-zero
exit of the simulator (the ProcessFailure of the specification). -/
structure ProcessFailure where
  returncode : Int
deriving DecidableEq

/-- Working-directory behaviour of run_bg_flood_model (bg_flood_model.py lines
202-205):

  cwd = pathlib.Path.cwd()
  os.chdir(bg_flood_dir)
  subprocess.run([bg_flood_dir / "BG_flood.exe"], check=True)
  os.chdir(cwd)

The subprocess is external; only its exit code matters here.  With check=True
a non-zero exit raises CalledProcessError, which propagates out of the plain
statement sequence before the final os.chdir(cwd) runs.  The function returns
the outcome together with the working directory the process is left in. -/
def run_bg_flood_model_cwd (bg_flood_dir : String) (exit_code : Int)
    (cwd0 : String) : Except ProcessFailure Unit × String :=
  let cwd := cwd0                       -- cwd = pathlib.Path.cwd()
  let current := bg_flood_dir           -- os.chdir(bg_flood_dir)
  if exit_code = 0 then
    (Except.ok (), cwd)                 -- os.chdir(cwd) after a successful run
  else
    (Except.error ⟨exit_code⟩, current) -- exception propagates; os.chdir(cwd) is skipped

/-- BGFloodModelOutput.created_at (bg_flood_model.py line 63):

  created_at = Column(DateTime(timezone=True), default=datetime.now(), ...)

datetime.now() is CALLED at class-definition (module import) time, so the
column default is the one fixed timestamp taken when the module was imported,
not the time a row is inserted. -/
def bgFloodModelOutput_created_at_default (module_import_time : Nat) : Nat :=
  module_import_time

/-- Row of the bg_flood_model_output table (timestamps as abstract instants,
geometry as its WKT serialisation). -/
structure ModelOutputRecord where
  file_name : String
  file_path : String
  created_at : Nat
  geometry : String
deriving DecidableEq

/-- store_model_output_metadata_to_db: ensures the table exists and appends one
record; insert_time is the wall clock at the moment of the call, which the
insert does not consult because the created_at column default was already
evaluated at import time. -/
def store_model_output_metadata_to_db (module_import_time _insert_time : Nat)
    (output_name output_path geometry : String)
    (db : List ModelOutputRecord) : List ModelOutputRecord :=
  db ++ [{ file_name := output_name, file_path := output_path,
           created_at := bgFloodModelOutput_created_at_default module_import_time,
           geometry := geometry }]

/-- Ordering used to model ORDER BY created_at DESC. -/
def createdAtDesc (a b : ModelOutputRecord) : Prop :=
  b.created_at ≤ a.created_at

instance : DecidableRel createdAtDesc :=
  fun a b => Nat.decLe b.created_at a.created_at

instance : IsTotal ModelOutputRecord createdAtDesc :=
  ⟨fun a b => Nat.le_total b.created_at a.created_at⟩

instance : IsTrans ModelOutputRecord createdAtDesc :=
  ⟨fun _ _ _ h h2 => Nat.le_trans h2 h⟩

/-- latest_model_output_filepath_from_db: SELECT * FROM bg_flood_model_output
ORDER BY created_at DESC LIMIT 1, returning the file_path column (none when
the table is empty, where the Python indexing would fail). -/
def latest_model_output_filepath_from_db (db : List ModelOutputRecord) :
    Option String :=
  ((db.insertionSort createdAtDesc).head?).map (·.file_path)

/-- In-memory view of a netCDF dataset: its coordinate-reference metadata and
its data payload. -/
structure XrDataset where
  crs : Option String
  data_vars : List String
deriving DecidableEq

/-- A to_netcdf(path) call: which file was written and with what contents. -/
structure NetcdfWrite where
  path : String
  contents : XrDataset
deriving DecidableEq

/-- add_crs_to_latest_model_output (bg_flood_model.py lines 102-111): fetch the
latest output path from the database, open it (the filesystem is the fs
parameter), write EPSG:2193 into the in-memory dataset only when its CRS is
absent, then unconditionally write the dataset back to the same file — the
to_netcdf call sits outside the if. -/
def add_crs_to_latest_model_output (db : List ModelOutputRecord)
    (fs : String → XrDataset) : Option NetcdfWrite :=
  match latest_model_output_filepath_from_db db with
  | none => none
  | some latest_file =>
    let latest_output := fs latest_file            -- xr.open_dataset(latest_file).load()
    let latest_output :=
      if latest_output.crs = none                  -- if latest_output.rio.crs is None
      then { latest_output with crs := some "epsg:2193" }  -- rio.write_crs("epsg:2193", inplace=True)
      else latest_output
    some { path := latest_file, contents := latest_output }  -- latest_output.to_netcdf(latest_file)

/-- RainInputType enumeration (rainfall_enum.py, as used here). -/
inductive RainInputType where
  | uniform
  | varying
deriving DecidableEq

/-- Glob pattern star-underscore-bnd-dot-txt of bg_flood_model.py line 163: a
name matches exactly when it ends in the literal text underscore-bnd-dot-txt
(the star matches any run of characters, the empty run included). -/
def isTideInputFile (n : String) : Bool :=
  listEndsWith ("_bnd.txt".data) n.data

/-- Glob pattern river-digit-star-underscore-star-dot-txt of bg_flood_model.py
line 166: the literal text river, one decimal digit, any run of characters, an
underscore, any run of characters, then the literal extension dot-txt. -/
def isRiverInputFile (n : String) : Bool :=
  match n.data with
  | 'r' :: 'i' :: 'v' :: 'e' :: 'r' :: c :: rest =>
    c.isDigit && listEndsWith (".txt".data) rest
      && (rest.take (rest.length - 4)).contains '_'
  | _ => false

/-- process_tide_input_files: the boundary position is the part of the file
stem before the first underscore; the file reference is the full name. -/
def process_tide_input_files (n : String) : String × String :=
  let tide_position := ((strSplitOnChar '_' (path_stem_suffix n).1).headD "")
  (tide_position, n)

/-- process_river_input_files: rebuilds the base file name (first stem part
plus the original extension) and the comma-joined extent fields from the
remaining stem parts; the source also renames the file on disk to the base
name, returned here as the second component. -/
def process_river_input_files (n : String) : String × String :=
  let st := path_stem_suffix n
  let file_name_parts := strSplitOnChar '_' st.1
  let file_name := file_name_parts.headD "" ++ st.2
  let extents := strIntercalate "," file_name_parts.tail
  let river := file_name ++ "," ++ extents
  (river, file_name)

/-- get_bg_flood_model_inputs (bg_flood_model.py lines 130-168) as the list of
(parameter name, parameter value) pairs written to BG_param.txt, in file
order: the fixed block of ten parameters, then one boundary parameter per
directory entry matching the tide glob, then one river parameter per entry
matching the river glob.  elev_var stands for list(dem_file.data_vars)[1];
numeric arguments appear as their rendered text.  bg_flood_dir_files is the
listing of the flood-model directory that the two globs scan. -/
def get_bg_flood_model_inputs (dem_path elev_var resolution output_timestep
    end_time mask gpu_device small_nc outfile : String)
    (rain_input_type : RainInputType)
    (bg_flood_dir_files : List String) : List (String × String) :=
  let rainfall :=
    match rain_input_type with
    | RainInputType.uniform => "rain_forcing.txt"
    | RainInputType.varying => "rain_forcing.nc?rain_intensity_mmhr"
  let header : List (String × String) :=
    [("topo", dem_path ++ "?" ++ elev_var),
     ("dx", resolution),
     ("outputtimestep", output_timestep),
     ("endtime", end_time),
     ("mask", mask),
     ("gpudevice", gpu_device),
     ("smallnc", small_nc),
     ("outfile", outfile),
     ("outvars", "h, hmax, zb, zs, u, v"),
     ("rain", rainfall)]
  let tide_params :=
    (bg_flood_dir_files.filter isTideInputFile).map fun n =>
      let pt := process_tide_input_files n
      (pt.1, pt.2 ++ ",2")              -- "{tide_position} = {tide_file},2;"
  let river_params :=
    (bg_flood_dir_files.filter isRiverInputFile).map fun n =>
      ("river", (process_river_input_files n).1)   -- "river = {river};"
  header ++ tide_params ++ river_params

/-- Serialisation of one parameter pair as the line the source writes. -/
def renderParamLine (p : String × String) : String :=
  p.1 ++ " = " ++ p.2 ++ ";"

/- ---------------------------------------------------------------------------
src/dynamic_boundary_conditions/hirds_rainfall_data_to_db.py
--------------------------------------------------------------------------- -/

/-- Observable side effects of the rainfall-ingestion component: an external
HIRDS fetch for one site, a tabular append to a database table, or a log
message. -/
inductive RainEffect where
  | fetchHirds (site_id : String) (idf : Bool)
  | insertRows (table : String) (site_id : String)
  | logInfo (msg : String)
deriving DecidableEq

/-- db_rain_table_name: depth table for idf = false, intensity table for
idf = true. -/
def db_rain_table_name (idf : Bool) : String :=
  if idf = false then "rainfall_depth" else "rainfall_intensity"

/-- Row of the sites-coverage GeoDataFrame restricted to the column the
ingestion reads. -/
structure SiteCoverageRow where
  site_id : String
deriving DecidableEq

/-- get_sites_id_in_catchment: the site_id column as a list. -/
def get_sites_id_in_catchment (sites_in_catchment : List SiteCoverageRow) :
    List String :=
  sites_in_catchment.map (·.site_id)

/-- get_sites_id_not_in_db: catchment site ids minus the distinct site ids the
target table already holds (SELECT DISTINCT site_id...).  Python builds a set,
whose iteration order is unspecified; first-occurrence order is used here. -/
def get_sites_id_not_in_db (sites_id_in_db : List String)
    (sites_id_in_catchment : List String) : List String :=
  (sites_id_in_catchment.filter (fun s => ¬ s ∈ sites_id_in_db)).dedup

/-- add_rainfall_data_to_db for one site: fetch the site from HIRDS, then
append one tabular block per entry of the layout structure of the response
(hirds_blocks gives that block count: the external response shape), then log.
-/
def add_rainfall_data_to_db (hirds_blocks : String → Bool → Nat)
    (site_id : String) (idf : Bool) : List RainEffect :=
  let rain_table_name := db_rain_table_name idf
  RainEffect.fetchHirds site_id idf ::
    ((List.range (hirds_blocks site_id idf)).map
      (fun _ => RainEffect.insertRows rain_table_name site_id)) ++
    [RainEffect.logInfo
      ("Added " ++ rain_table_name ++ " data for site " ++ site_id ++ " to database")]

/-- add_each_site_rainfall_data: per-site ingestion over a list of ids. -/
def add_each_site_rainfall_data (hirds_blocks : String → Bool → Nat)
    (sites_id_list : List String) (idf : Bool) : List RainEffect :=
  sites_id_list.flatMap (fun site_id => add_rainfall_data_to_db hirds_blocks site_id idf)

/-- rainfall_data_to_db (hirds_rainfall_data_to_db.py lines 145-183).
table_exists and sites_id_in_db describe the database the engine reaches:
whether the target table exists and, when it does, its distinct site ids. -/
def rainfall_data_to_db (table_exists : Bool) (sites_id_in_db : List String)
    (hirds_blocks : String → Bool → Nat)
    (sites_in_catchment : List SiteCoverageRow) (idf : Bool) : List RainEffect :=
  let sites_id_in_catchment := get_sites_id_in_catchment sites_in_catchment
  let table_name := db_rain_table_name idf
  if table_exists then
    let sites_id_not_in_db := get_sites_id_not_in_db sites_id_in_db sites_id_in_catchment
    if sites_id_not_in_db ≠ [] then
      add_each_site_rainfall_data hirds_blocks sites_id_not_in_db idf
    else
      [RainEffect.logInfo (table_name ++
        " data for sites in the requested catchment already available in the database.")]
  else
    if sites_id_in_catchment ≠ [] then
      add_each_site_rainfall_data hirds_blocks sites_id_in_catchment idf
    else
      [RainEffect.logInfo "No rainfall sites found within the requested catchment area."]

/-- Recogniser for fetch effects. -/
def isFetchEffect : RainEffect → Bool
  | RainEffect.fetchHirds _ _ => true
  | _ => false

/-- Recogniser for insert effects. -/
def isInsertEffect : RainEffect → Bool
  | RainEffect.insertRows _ _ => true
  | _ => false

/- ---------------------------------------------------------------------------
src/dynamic_boundary_conditions/hirds_depth_data_from_db.py
--------------------------------------------------------------------------- -/

/-- Parametrised content of the SQL text sent to the hirds_rain_depth table:
site, recurrence interval and duration-named column, with either an explicit
(rcp, time_period) filter or the is-null filter. -/
structure DepthQuery where
  site_id : String
  ari : ℚ
  duration : ℚ
  scenario : Option (String × String)
deriving DecidableEq

/-- Failure modes of get_each_site_hirds_depth_data: the explicit argument
check, or fetchone() returning no row (list(None) then raises). -/
inductive DepthError where
  | invalidInput (msg : String)
  | noMatchingRow
deriving DecidableEq

/-- get_each_site_hirds_depth_data (hirds_depth_data_from_db.py lines 13-34).
The database engine is the db parameter, mapping an executed query to its
first row, if any.  The result is paired with the list of queries actually
executed. -/
def get_each_site_hirds_depth_data (db : DepthQuery → Option (String × ℚ))
    (ari duration : ℚ) (site : String) (rcp time_period : Option String) :
    Except DepthError (String × ℚ) × List DepthQuery :=
  if (rcp = none ∧ time_period ≠ none) ∨ (rcp ≠ none ∧ time_period = none) then
    (Except.error (DepthError.invalidInput
      ("check the arguments of get_hirds_depth_data if rcp is None,time" ++
       " period should be None and vice-versa")), [])
  else
    let query : DepthQuery :=
      match rcp, time_period with
      | some r, some t =>
        { site_id := site, ari := ari, duration := duration, scenario := some (r, t) }
      | _, _ =>
        { site_id := site, ari := ari, duration := duration, scenario := none }
    match db query with
    | some row => (Except.ok row, [query])
    | none => (Except.error DepthError.noMatchingRow, [query])

/- ---------------------------------------------------------------------------
src/dynamic_boundary_conditions/river/river_data_to_from_db.py
--------------------------------------------------------------------------- -/

/-- Row of the sea_draining_catchments query result, over an abstract geometry
type G (the spatial predicates of the geometry library are passed in as
functions). -/
structure SdcRow (G : Type) where
  catch_id : Int
  geometry : G
deriving DecidableEq

/-- Row of the rec1_data query result for the combined polygon. -/
structure Rec1Row (G : Type) where
  objectid : Int
  geometry : G
deriving DecidableEq

/-- Row of the left spatial join of REC1 reaches to sea-draining catchments:
catch_id is none where the reach is within no catchment (the NaN of the
pandas join). -/
structure Rec1JoinRow (G : Type) where
  objectid : Int
  geometry : G
  catch_id : Option Int
deriving DecidableEq

/-- Returned row after the astype(int) coercion of catch_id. -/
structure Rec1SdcRow (G : Type) where
  objectid : Int
  geometry : G
  catch_id : Int
deriving DecidableEq

/-- Network-exclusion record: reach, run id and cause. -/
structure NetworkExclusion (G : Type) where
  river_network_id : Int
  objectid : Int
  geometry : G
  exclusion_cause : String
deriving DecidableEq

/-- Join rows one left row contributes: one row per containing catchment, or a
single row with absent catch_id when no catchment contains the reach. -/
def sjoinRowsFor {G : Type} (within : G → G → Bool) (sdc_data : List (SdcRow G))
    (r : Rec1Row G) : List (Rec1JoinRow G) :=
  if (sdc_data.filter (fun s => within r.geometry s.geometry)).isEmpty then
    [{ objectid := r.objectid, geometry := r.geometry, catch_id := none }]
  else
    (sdc_data.filter (fun s => within r.geometry s.geometry)).map
      (fun s => ({ objectid := r.objectid, geometry := r.geometry,
                   catch_id := some s.catch_id } : Rec1JoinRow G))

/-- gpd.sjoin(rec1_data, sdc_data[["catch_id", "geometry"]], how="left",
predicate="within"): one output row per (reach, containing catchment) pair in
left-row order, and a single row with absent catch_id for a reach contained in
no catchment. -/
def sjoin_left_within {G : Type} (within : G → G → Bool)
    (rec1_data : List (Rec1Row G)) (sdc_data : List (SdcRow G)) :
    List (Rec1JoinRow G) :=
  rec1_data.flatMap (sjoinRowsFor within sdc_data)

/-- pandas drop_duplicates(): remove rows equal on every column, keeping the
first occurrence (auxiliary accumulator form). -/
def dedupFirstAux {α : Type} [DecidableEq α] (seen : List α) : List α → List α
  | [] => []
  | a :: rest =>
    if a ∈ seen then dedupFirstAux seen rest
    else a :: dedupFirstAux (a :: seen) rest

/-- pandas drop_duplicates() over whole rows. -/
def dedupFirst {α : Type} [DecidableEq α] (l : List α) : List α :=
  dedupFirstAux [] l

/-- Key order of sort_values(by="objectid") (ascending by default). -/
def joinRowLe {G : Type} (a b : Rec1JoinRow G) : Prop :=
  a.objectid ≤ b.objectid

instance {G : Type} : DecidableRel (@joinRowLe G) :=
  fun a b => Int.decLe a.objectid b.objectid

instance {G : Type} : IsTotal (Rec1JoinRow G) joinRowLe :=
  ⟨fun a b => Int.le_total a.objectid b.objectid⟩

instance {G : Type} : IsTrans (Rec1JoinRow G) joinRowLe :=
  ⟨fun _ _ _ h h2 => le_trans h h2⟩

/-- add_network_exclusions_to_db.  Modelled from the spec: the function lives
in river_network_to_from_db.py, which is outside the excerpt; per the
inferred contract it records one river-network exclusion per passed row
(reach geometry + run id + cause) to a database table. -/
def add_network_exclusions_to_db {G : Type} (river_network_id : Int)
    (rec1_network_exclusions : List (Rec1JoinRow G))
    (exclusion_cause : String) : List (NetworkExclusion G) :=
  rec1_network_exclusions.map fun r =>
    { river_network_id := river_network_id, objectid := r.objectid,
      geometry := r.geometry, exclusion_cause := exclusion_cause }

/-- get_rec1_data_with_sdc_from_db (river_data_to_from_db.py lines 108-165).
rec1_data and sdc_data are the frames the two spatial SQL queries return (the
REC1 reaches intersecting the combined catchment polygon, and the intersecting
sea-draining catchments); within is the geometry-library containment
predicate.  Returns the valid reaches together with the exclusion records the
call stores. -/
def get_rec1_data_with_sdc_from_db {G : Type} [DecidableEq G]
    (within : G → G → Bool) (rec1_data : List (Rec1Row G))
    (sdc_data : List (SdcRow G)) (river_network_id : Int) :
    List (Rec1SdcRow G) × List (NetworkExclusion G) :=
  let rec1_data_join_sdc := sjoin_left_within within rec1_data sdc_data
  -- rows where REC1 geometries are fully contained within sea-draining catchments
  let rec1_data_with_sdc := rec1_data_join_sdc.filter (fun r => r.catch_id.isSome)
  -- drop_duplicates().sort_values(by="objectid")
  let rec1_data_with_sdc := (dedupFirst rec1_data_with_sdc).insertionSort joinRowLe
  -- catch_id column astype(int); every kept row has a present catch_id
  let rec1_data_with_sdc_int := rec1_data_with_sdc.map fun r =>
    ({ objectid := r.objectid, geometry := r.geometry,
       catch_id := r.catch_id.getD 0 } : Rec1SdcRow G)
  -- rows not fully contained within any sea-draining catchment
  let rec1_network_exclusions := rec1_data_join_sdc.filter (fun r => r.catch_id.isNone)
  let stored := add_network_exclusions_to_db river_network_id rec1_network_exclusions
    "crossing multiple sea-draining catchments"
  (rec1_data_with_sdc_int, stored)

/- ---------------------------------------------------------------------------
src/dynamic_boundary_conditions/tide_query_location.py
--------------------------------------------------------------------------- -/

/-- Planar coordinates: the float coordinates of the sources hold small dyadic
values here, modelled exactly as rationals. -/
abbrev Point : Type := ℚ × ℚ

/-- Python comparison of two coordinate tuples (lexicographic). -/
def pyPairLt (p q : Point) : Prop :=
  p.1 < q.1 ∨ (p.1 = q.1 ∧ p.2 < q.2)

instance (p q : Point) : Decidable (pyPairLt p q) :=
  instDecidableOr

/-- One step of Python min over coordinate tuples: a new element replaces the
running minimum only when strictly smaller, so the first minimal element wins.
-/
def pyMinStep : Option Point → Point → Option Point
  | none, p => some p
  | some m, p => if pyPairLt p m then some p else some m

/-- Python min over a list of coordinate tuples: the first minimal element
(none for the empty list, where Python raises). -/
def pyMin (l : List Point) : Option Point :=
  l.foldl pyMinStep none

/-- One step of Python max over coordinate tuples: the first maximal element
wins. -/
def pyMaxStep : Option Point → Point → Option Point
  | none, p => some p
  | some m, p => if pyPairLt m p then some p else some m

/-- Python max over a list of coordinate tuples: the first maximal element. -/
def pyMax (l : List Point) : Option Point :=
  l.foldl pyMaxStep none

/-- Consecutive vertex pairs of a coordinate sequence, as the loop
for i in range(len(boundary_lines) - 1) walks them. -/
def adjPairs {α : Type} : List α → List (α × α)
  | a :: b :: rest => (a, b) :: adjPairs (b :: rest)
  | _ => []

/-- One row of the boundary-info frame: position label, segment centroid and
the segment itself. -/
structure BoundarySegment where
  line_position : String
  centroid : Point
  boundary : Point × Point
deriving DecidableEq

/-- Body of the segment loop of get_catchment_boundary_info: classify each
consecutive vertex pair against the extremal coordinate tuples m and M,
aborting the whole loop on the first unclassifiable segment, as the raised
ValueError does. -/
def classifySegments (m M : Point) : List (Point × Point) → Except String (List BoundarySegment)
  | [] => Except.ok []
  | se :: rest =>
    let start_point := se.1
    let end_point := se.2
    let centroid : Point :=
      ((start_point.1 + end_point.1) / 2, (start_point.2 + end_point.2) / 2)
    let seg : Except String BoundarySegment :=
      if centroid.1 = m.1 then                  -- centroid.x == min(boundary_lines)[0]
        Except.ok { line_position := "left", centroid := centroid, boundary := se }
      else if centroid.1 = M.1 then             -- centroid.x == max(boundary_lines)[0]
        Except.ok { line_position := "right", centroid := centroid, boundary := se }
      else if centroid.2 = m.2 then             -- centroid.y == min(boundary_lines)[1]
        Except.ok { line_position := "bot", centroid := centroid, boundary := se }
      else if centroid.2 = M.2 then             -- centroid.y == max(boundary_lines)[1]
        Except.ok { line_position := "top", centroid := centroid, boundary := se }
      else
        Except.error "Failed to identify catchment boundary line position."
    match seg, classifySegments m M rest with
    | Except.error e, _ => Except.error e
    | Except.ok _, Except.error e => Except.error e
    | Except.ok s, Except.ok tail => Except.ok (s :: tail)

/-- get_catchment_boundary_info (tide_query_location.py lines 125-154).  The
input is the exterior-ring coordinate list of the catchment polygon (closed:
the first vertex repeated last).  Each consecutive vertex pair becomes a
segment whose midpoint is compared — with exact equality, as the floats of the
source are — against min(boundary_lines) and max(boundary_lines): note those
are the LEXICOGRAPHICALLY extremal coordinate tuples of the ring, so the x
comparisons see the ring-wide min/max x while the y comparisons see only the y
coordinate carried by those two tuples.  A segment matching no rule raises
ValueError. -/
def get_catchment_boundary_info (boundary_lines : List Point) :
    Except String (List BoundarySegment) :=
  let m := (pyMin boundary_lines).getD (0, 0)   -- min(boundary_lines); some _ whenever a segment exists
  let M := (pyMax boundary_lines).getD (0, 0)   -- max(boundary_lines)
  classifySegments m M (adjPairs boundary_lines)

/-- Row of get_catchment_boundary_lines: label and segment. -/
structure BoundaryLineRow where
  line_position : String
  geometry : Point × Point
deriving DecidableEq

/-- get_catchment_boundary_lines: boundary info restricted to label and
segment geometry. -/
def get_catchment_boundary_lines (boundary_lines : List Point) :
    Except String (List BoundaryLineRow) :=
  (get_catchment_boundary_info boundary_lines).map
    (List.map fun s => { line_position := s.line_position, geometry := s.boundary })

/-- Row of get_catchment_boundary_centroids: label and centroid point. -/
structure BoundaryCentroidRow where
  line_position : String
  geometry : Point
deriving DecidableEq

/-- get_catchment_boundary_centroids: boundary info restricted to label and
centroid. -/
def get_catchment_boundary_centroids (boundary_lines : List Point) :
    Except String (List BoundaryCentroidRow) :=
  (get_catchment_boundary_info boundary_lines).map
    (List.map fun s => { line_position := s.line_position, geometry := s.centroid })

/-- Insertion into the Python distances dict: a repeated key keeps its original
position but takes the new value; a new key is appended. -/
def dictInsert (d : List (String × ℚ)) (k : String) (v : ℚ) : List (String × ℚ) :=
  if d.any (fun kv => kv.1 == k) then
    d.map (fun kv => if kv.1 == k then (k, v) else kv)
  else d ++ [(k, v)]

/-- min(distances, key=distances.get): the first key (in dict insertion order)
carrying the minimal value. -/
def dictMinKey (d : List (String × ℚ)) : Option String :=
  (d.foldl (fun acc kv =>
    match acc with
    | none => some kv
    | some best => if kv.2 < best.2 then some kv else some best) none).map (·.1)

/-- Row of the tide-query result: position label and query point. -/
structure TideQueryRow where
  position : String
  geometry : Point
deriving DecidableEq

/-- get_non_intersection_centroid_position (tide_query_location.py lines
171-188) over abstract geometry pieces: explode multi-part pieces, compute
each centroid (both geometry-library primitives passed in), build the
label-to-distance dict over the boundary segments and pick the closest label.
-/
def get_non_intersection_centroid_position {Piece : Type}
    (explode : Piece → List Piece) (pieceCentroid : Piece → Point)
    (distToSegment : Point → Point × Point → ℚ)
    (boundary_coords : List Point) (non_intersection : List Piece) :
    Except String (List TideQueryRow) :=
  (get_catchment_boundary_lines boundary_coords).map fun boundary_lines =>
    (non_intersection.flatMap explode).map fun piece =>
      let centroid := pieceCentroid piece
      let distances := boundary_lines.foldl
        (fun d row => dictInsert d row.line_position (distToSegment centroid row.geometry)) []
      let closest_line := (dictMinKey distances).getD ""
      { position := closest_line, geometry := centroid }

/-- Failure modes of get_tide_query_locations: the ValueError propagated from
boundary classification, or the deliberate exit() when no coastline lies
within the search buffer. -/
inductive TideError where
  | invalid_geometry (msg : String)
  | process_exit
deriving DecidableEq

/-- Result frame of get_tide_query_locations with the CRS it was reprojected
to. -/
structure TideQueryResult where
  rows : List TideQueryRow
  crs : Nat
deriving DecidableEq

/-- Ordering of sort_values(by="dist_to_coast") over (row, distance) pairs. -/
def distToCoastLe (a b : BoundaryCentroidRow × ℚ) : Prop :=
  a.2 ≤ b.2

instance : DecidableRel distToCoastLe :=
  fun a b => Rat.instDecidableLe a.2 b.2

instance : IsTotal (BoundaryCentroidRow × ℚ) distToCoastLe :=
  ⟨fun a b => le_total a.2 b.2⟩

instance : IsTrans (BoundaryCentroidRow × ℚ) distToCoastLe :=
  ⟨fun _ _ _ h h2 => le_trans h h2⟩

/-- get_tide_query_locations (tide_query_location.py lines 191-213).
non_intersection holds the rows of catchment_area.overlay(regions_clipped,
how="difference"); coastline holds the rows get_nz_coastline_from_db returns
for the catchment buffered by distance_km (default 1 km, mitred joins).  Both
queries, the geometric primitives and the EPSG:4326 reprojection are external
library/database interfaces, passed in as parameters. -/
def get_tide_query_locations {Piece Geom : Type}
    (explode : Piece → List Piece) (pieceCentroid : Piece → Point)
    (distToSegment : Point → Point × Point → ℚ)
    (distToGeom : Point → Geom → ℚ) (toCrs4326 : Point → Point)
    (catchment_coords : List Point)
    (non_intersection : List Piece) (coastline : List Geom) :
    Except TideError TideQueryResult :=
  if non_intersection.isEmpty = false then   -- if not non_intersection.empty
    match get_non_intersection_centroid_position explode pieceCentroid distToSegment
        catchment_coords non_intersection with
    | Except.error msg => Except.error (TideError.invalid_geometry msg)
    | Except.ok rows =>
      Except.ok { rows := rows.map (fun r => { r with geometry := toCrs4326 r.geometry }),
                  crs := 4326 }
  else
    match coastline with
    | [] => Except.error TideError.process_exit   -- log "No relevant tide data ..." then exit()
    | coastline_geom :: _ =>                      -- coastline["geometry"].iloc[0]
      match get_catchment_boundary_centroids catchment_coords with
      | Except.error msg => Except.error (TideError.invalid_geometry msg)
      | Except.ok boundary_centroids =>
        let withDist := boundary_centroids.map fun b =>
          (b, distToGeom b.geometry coastline_geom)  -- dist_to_coast column
        let sorted := withDist.insertionSort distToCoastLe  -- sort_values("dist_to_coast")
        let tide_query_location := (sorted.take 1).map fun b =>
          ({ position := b.1.line_position, geometry := b.1.geometry } : TideQueryRow)
        Except.ok { rows := tide_query_location.map
                      (fun r => { r with geometry := toCrs4326 r.geometry }),
                    crs := 4326 }

/- ---------------------------------------------------------------------------
tests/apisDB/api_values.py
--------------------------------------------------------------------------- -/

/-- Decimal digit character for a value below ten. -/
def digitChar (d : Nat) : Char :=
  Char.ofNat (48 + d)

/-- Value of a decimal digit character. -/
def digitVal (c : Char) : Nat :=
  c.toNat - 48

/-- Decimal rendering of a natural number (fuel-driven so concrete instances
reduce; the fuel n + 1 always suffices). -/
def natToStrCore : Nat → Nat → List Char
  | 0, _ => []
  | fuel + 1, n =>
    if n < 10 then [digitChar n]
    else natToStrCore fuel (n / 10) ++ [digitChar (n % 10)]

/-- Decimal rendering of a natural number, as Python str would produce it. -/
def natToStr (n : Nat) : String :=
  String.mk (natToStrCore (n + 1) n)

/-- Accumulating decimal parse of a character list; none on any non-digit. -/
def parseDigitsCore (acc : Nat) : List Char → Option Nat
  | [] => some acc
  | c :: rest =>
    if c.isDigit then parseDigitsCore (acc * 10 + digitVal c) rest else none

/-- Decimal parse of a non-empty all-digit character list. -/
def parseNatDigits (cs : List Char) : Option Nat :=
  match cs with
  | [] => none
  | _ => parseDigitsCore 0 cs

/-- Month abbreviations recognised by the %b directive of strptime. -/
def month_abbrs : List String :=
  ["Jan", "Feb", "Mar", "Apr", "May", "Jun",
   "Jul", "Aug", "Sep", "Oct", "Nov", "Dec"]

/-- Case-insensitive equality of names, as strptime matches month names. -/
def strCaseEq (a b : String) : Bool :=
  a.data.map Char.toLower == b.data.map Char.toLower

/-- Month number (1-12) for a month-abbreviation token, matched
case-insensitively; none when the token is no month abbreviation. -/
def monthIndex (b : String) : Option Nat :=
  (month_abbrs.findIdx? (fun a => strCaseEq a b)).map (· + 1)

/-- Gregorian leap-year rule, as the datetime library applies it. -/
def isLeapYear (y : Nat) : Bool :=
  y % 4 = 0 && (y % 100 ≠ 0 || y % 400 = 0)

/-- Days in a month of a year, as the datetime library validates the day. -/
def daysInMonth (m y : Nat) : Nat :=
  if m = 2 then (if isLeapYear y then 29 else 28)
  else if m = 4 ∨ m = 6 ∨ m = 9 ∨ m = 11 then 30
  else 31

/-- Zero-padded two-digit rendering (the %m / %d directives of strftime). -/
def pad2 (n : Nat) : String :=
  (if n < 10 then "0" else "") ++ natToStr n

/-- Zero-padded four-digit rendering (the %Y directive of strftime). -/
def pad4 (n : Nat) : String :=
  (if n < 10 then "000" else if n < 100 then "00" else if n < 1000 then "0" else "")
    ++ natToStr n

/-- mdy_to_ymd (api_values.py lines 38-40):

  datetime.strptime(url_date, "%d %b %Y").strftime("%Y-%m-%d")

The %d directive takes one or two digits, %b a month abbreviation matched
case-insensitively, %Y four digits; datetime construction then validates the
day against the month length and requires a positive year.  none models the
ValueError strptime raises on any mismatch. -/
def mdy_to_ymd (url_date : String) : Option String :=
  match strSplitOnChar ' ' url_date with
  | [d, b, y] =>
    match parseNatDigits d.data, monthIndex b, parseNatDigits y.data with
    | some day, some month, some year =>
      if d.data.length ≤ 2 ∧ y.data.length = 4 ∧
          1 ≤ day ∧ day ≤ daysInMonth month year ∧ 1 ≤ year then
        some (pad4 year ++ "-" ++ pad2 month ++ "-" ++ pad2 day)
      else none
    | _, _, _ => none
  | _ => none

/-- One parsed HTML table cell: tag name and contained text. -/
structure HtmlCell where
  tag : String
  text : String
deriving DecidableEq

/-- Cells following the first th cell whose text is exactly "Last updated"
within one row (its later siblings); none when the row has no such th. -/
def cellsAfterLastUpdatedTh : List HtmlCell → Option (List HtmlCell)
  | [] => none
  | c :: rest =>
    if c.tag == "th" && c.text == "Last updated" then some rest
    else cellsAfterLastUpdatedTh rest

/-- Failure modes of urlModifiedDate: soup.find returning None (or the header
having no td sibling) makes the subsequent attribute access raise
AttributeError; a date text strptime cannot parse raises ValueError. -/
inductive ApiError where
  | attribute_error
  | value_error (text : String)
deriving DecidableEq

/-- urlModifiedDate (api_values.py lines 31-42).  fetchPage stands for
requests.get plus the BeautifulSoup parse, producing the page as rows of
sibling cells; soup.find("th", text="Last updated") locates the first matching
header cell in document order, find_next_sibling("td") the first following td
among its siblings. -/
def urlModifiedDate (fetchPage : String → List (List HtmlCell)) (url : String) :
    Except ApiError String :=
  let soup := fetchPage url
  match soup.findSome? cellsAfterLastUpdatedTh with
  | none => Except.error ApiError.attribute_error
  | some siblings =>
    match siblings.find? (fun c => c.tag == "td") with
    | none => Except.error ApiError.attribute_error
    | some td =>
      match mdy_to_ymd td.text with
      | none => Except.error (ApiError.value_error td.text)
      | some url_update_date => Except.ok url_update_date

/- ---------------------------------------------------------------------------
Theorems.
--------------------------------------------------------------------------- -/

/-- C1: tracing run_bg_flood_model at a concrete call site: when the simulator
exits 0 the working directory is restored to its pre-call value, but when the
simulator exits 1 — raising ProcessFailure — the process is left in the model
directory, not the pre-call directory: the restoring os.chdir(cwd) is skipped
on the exception path. -/
theorem c1_cwd_left_in_model_dir_on_failure :
    run_bg_flood_model_cwd "/opt/bg_flood" 0 "/home/analyst" =
      (Except.ok (), "/home/analyst") ∧
    run_bg_flood_model_cwd "/opt/bg_flood" 1 "/home/analyst" =
      (Except.error { returncode := 1 }, "/opt/bg_flood") ∧
    "/opt/bg_flood" ≠ "/home/analyst" := by
  refine ⟨rfl, rfl, by decide⟩

/-- C5: two records inserted at different instants (100 and 200, after a
module load at 50) both carry the load-time default 50 as created_at, so their
created_at values are equal even though the insertion times differ —
default=datetime.now() was evaluated once, at class definition. -/
theorem c5_created_at_equal_across_inserts :
    ((store_model_output_metadata_to_db 50 200 "output_b.nc" "/out/output_b.nc" "POLY_B"
        (store_model_output_metadata_to_db 50 100 "output_a.nc" "/out/output_a.nc" "POLY_A"
          [])).map (·.created_at)) = [50, 50] ∧ (100 : Nat) ≠ 200 := by
  refine ⟨by decide, by decide⟩

/-- C10: for a non-empty output-metadata table, add_crs_to_latest_model_output
always writes the latest output file back to disk — also when its CRS metadata
was already present and unchanged — and the written dataset carries EPSG:2193
exactly on repair: it is stamped in when the CRS was absent, while a present
CRS and the data variables pass through untouched. -/
theorem c10_latest_output_rewritten_unconditionally (db : List ModelOutputRecord)
    (fs : String → XrDataset) (h : db ≠ []) :
    ∃ w : NetcdfWrite, add_crs_to_latest_model_output db fs = some w ∧
      ((fs w.path).crs = none → w.contents.crs = some "epsg:2193") ∧
      (∀ c, (fs w.path).crs = some c → w.contents = fs w.path) ∧
      w.contents.data_vars = (fs w.path).data_vars := by
  obtain ⟨r, rest, hr⟩ : ∃ r rest, db.insertionSort createdAtDesc = r :: rest := by
    rcases hs : db.insertionSort createdAtDesc with _ | ⟨a, l⟩
    · exfalso
      have hlen := (List.perm_insertionSort createdAtDesc db).length_eq
      rw [hs] at hlen
      rcases db with _ | ⟨b, bs⟩
      · exact h rfl
      · simp at hlen
    · exact ⟨a, l, rfl⟩
  unfold add_crs_to_latest_model_output latest_model_output_filepath_from_db
  rw [hr]
  simp only [List.head?, Option.map_some']
  by_cases hcrs : (fs r.file_path).crs = none
  · rw [if_pos hcrs]
    refine ⟨_, rfl, fun _ => rfl, fun c hc => ?_, rfl⟩
    rw [hcrs] at hc
    cases hc
  · rw [if_neg hcrs]
    exact ⟨_, rfl, fun hnone => absurd hnone hcrs, fun c _ => rfl, rfl⟩

/-- C10 witness: a one-row table whose output file already has a CRS — the file
is still written back, unchanged. -/
theorem c10_latest_output_rewritten_unconditionally_witness :
    ∃ w : NetcdfWrite,
      add_crs_to_latest_model_output
        [{ file_name := "output_a.nc", file_path := "/out/output_a.nc",
           created_at := 5, geometry := "POLYGON" }]
        (fun _ => { crs := some "epsg:4326", data_vars := ["h", "zb"] }) = some w ∧
      (((fun _ => ({ crs := some "epsg:4326", data_vars := ["h", "zb"] } : XrDataset)) w.path).crs
          = none → w.contents.crs = some "epsg:2193") ∧
      (∀ c, ((fun _ => ({ crs := some "epsg:4326", data_vars := ["h", "zb"] } : XrDataset)) w.path).crs
          = some c →
        w.contents = (fun _ => ({ crs := some "epsg:4326", data_vars := ["h", "zb"] } : XrDataset)) w.path) ∧
      w.contents.data_vars =
        ((fun _ => ({ crs := some "epsg:4326", data_vars := ["h", "zb"] } : XrDataset)) w.path).data_vars :=
  c10_latest_output_rewritten_unconditionally
    [{ file_name := "output_a.nc", file_path := "/out/output_a.nc",
       created_at := 5, geometry := "POLYGON" }]
    (fun _ => { crs := some "epsg:4326", data_vars := ["h", "zb"] })
    (by decide)

/-- C7: when the target rainfall table exists and every catchment site id is
already among its distinct site ids, rainfall_data_to_db performs no HIRDS
fetch and no table insert (it only logs), so a re-run after a successful run
changes nothing. -/
theorem c7_rerun_performs_no_fetch_or_insert (sites_id_in_db : List String)
    (hirds_blocks : String → Bool → Nat) (sites_in_catchment : List SiteCoverageRow)
    (idf : Bool)
    (h : ∀ s ∈ get_sites_id_in_catchment sites_in_catchment, s ∈ sites_id_in_db) :
    (rainfall_data_to_db true sites_id_in_db hirds_blocks sites_in_catchment idf).countP
        isFetchEffect = 0 ∧
    (rainfall_data_to_db true sites_id_in_db hirds_blocks sites_in_catchment idf).countP
        isInsertEffect = 0 := by
  have hfil : (get_sites_id_in_catchment sites_in_catchment).filter
      (fun s => ¬ s ∈ sites_id_in_db) = [] := by
    rw [List.filter_eq_nil_iff]
    intro a ha
    simp [h a ha]
  have hempty : get_sites_id_not_in_db sites_id_in_db
      (get_sites_id_in_catchment sites_in_catchment) = [] := by
    unfold get_sites_id_not_in_db
    rw [hfil]
    rfl
  unfold rainfall_data_to_db
  simp [hempty, isFetchEffect, isInsertEffect]

/-- C7 witness: a catchment whose single site s1 is already stored. -/
theorem c7_rerun_performs_no_fetch_or_insert_witness :
    (rainfall_data_to_db true ["s1", "s2"] (fun _ _ => 3)
        [{ site_id := "s1" }] false).countP isFetchEffect = 0 ∧
    (rainfall_data_to_db true ["s1", "s2"] (fun _ _ => 3)
        [{ site_id := "s1" }] false).countP isInsertEffect = 0 :=
  c7_rerun_performs_no_fetch_or_insert ["s1", "s2"] (fun _ _ => 3)
    [{ site_id := "s1" }] false (by decide)

/-- C8: get_each_site_hirds_depth_data raises InvalidInput — before executing
any database query — exactly when one of rcp and time_period is absent and the
other present; when both are present or both absent it executes one query and
never raises InvalidInput. -/
theorem c8_scenario_pairing_check (db : DepthQuery → Option (String × ℚ))
    (ari duration : ℚ) (site : String) (rcp time_period : Option String) :
    (((rcp = none ∧ time_period ≠ none) ∨ (rcp ≠ none ∧ time_period = none)) →
      get_each_site_hirds_depth_data db ari duration site rcp time_period =
        (Except.error (DepthError.invalidInput
          ("check the arguments of get_hirds_depth_data if rcp is None,time" ++
           " period should be None and vice-versa")), [])) ∧
    ((rcp = none ↔ time_period = none) →
      (get_each_site_hirds_depth_data db ari duration site rcp time_period).2.length = 1 ∧
      ∀ m, (get_each_site_hirds_depth_data db ari duration site rcp time_period).1 ≠
        Except.error (DepthError.invalidInput m)) := by
  constructor
  · intro hbad
    unfold get_each_site_hirds_depth_data
    rw [if_pos hbad]
  · intro hiff
    rcases rcp with _ | r <;> rcases time_period with _ | t
    · have hgood : ¬ (((none : Option String) = none ∧ (none : Option String) ≠ none) ∨
          ((none : Option String) ≠ none ∧ (none : Option String) = none)) := by simp
      unfold get_each_site_hirds_depth_data
      rw [if_neg hgood]
      rcases hdb : db (⟨site, ari, duration, none⟩ : DepthQuery) with _ | row <;>
        simp [hdb]
    · simp at hiff
    · simp at hiff
    · have hgood : ¬ ((some r = none ∧ some t ≠ none) ∨ (some r ≠ none ∧ some t = none)) := by
        simp
      unfold get_each_site_hirds_depth_data
      rw [if_neg hgood]
      rcases hdb : db (⟨site, ari, duration, some (r, t)⟩ : DepthQuery) with _ | row <;>
        simp [hdb]

/-- C8 witness: rcp absent with time_period present fails with InvalidInput and
runs no query, while the both-absent call runs one query without that error. -/
theorem c8_scenario_pairing_check_witness :
    get_each_site_hirds_depth_data (fun _ => none) 100 24 "site_a" none
        (some "2031-2050") =
      (Except.error (DepthError.invalidInput
        ("check the arguments of get_hirds_depth_data if rcp is None,time" ++
         " period should be None and vice-versa")), []) ∧
    (get_each_site_hirds_depth_data (fun _ => none) 100 24 "site_a" none none).2.length = 1 :=
  ⟨(c8_scenario_pairing_check (fun _ => none) 100 24 "site_a" none
      (some "2031-2050")).1 (Or.inl ⟨rfl, by decide⟩),
   ((c8_scenario_pairing_check (fun _ => none) 100 24 "site_a" none none).2
      (by decide)).1⟩

/-- C6: the BG_param.txt parameter list decomposes into the fixed block —
holding exactly one parameter line for each of rain, topo, dx, outputtimestep,
endtime, mask, gpudevice, smallnc, outfile and outvars — followed by exactly
one boundary line per directory entry matching the tide glob, each of whose
values carries the literal trailing parameter 2, followed by exactly one river
line per directory entry matching the river glob. -/
theorem c6_bg_param_file_structure (dem_path elev_var resolution output_timestep
    end_time mask gpu_device small_nc outfile : String)
    (rain_input_type : RainInputType) (bg_flood_dir_files : List String) :
    ∃ header tide_params river_params,
      get_bg_flood_model_inputs dem_path elev_var resolution output_timestep end_time
          mask gpu_device small_nc outfile rain_input_type bg_flood_dir_files =
        header ++ tide_params ++ river_params ∧
      (∀ k ∈ (["rain", "topo", "dx", "outputtimestep", "endtime", "mask", "gpudevice",
               "smallnc", "outfile", "outvars"] : List String),
        header.countP (fun p => p.1 == k) = 1) ∧
      tide_params.length = bg_flood_dir_files.countP isTideInputFile ∧
      (∀ p ∈ tide_params, ∃ n ∈ bg_flood_dir_files, isTideInputFile n = true ∧
        p = ((process_tide_input_files n).1, n ++ ",2")) ∧
      river_params.length = bg_flood_dir_files.countP isRiverInputFile ∧
      (∀ p ∈ river_params, p.1 = "river" ∧ ∃ n ∈ bg_flood_dir_files,
        isRiverInputFile n = true ∧ p.2 = (process_river_input_files n).1) := by
  refine ⟨_, _, _, rfl, ?_, ?_, ?_, ?_, ?_⟩
  · intro k hk
    fin_cases hk <;> simp [List.countP_cons]
  · simp [List.countP_eq_length_filter]
  · intro p hp
    simp only [List.mem_map, List.mem_filter] at hp
    obtain ⟨n, ⟨hn, hf⟩, rfl⟩ := hp
    exact ⟨n, hn, hf, rfl⟩
  · simp [List.countP_eq_length_filter]
  · intro p hp
    simp only [List.mem_map, List.mem_filter] at hp
    obtain ⟨n, ⟨hn, hf⟩, rfl⟩ := hp
    exact ⟨rfl, n, hn, hf, rfl⟩

/-- C6 witness: a directory with one tide file, one river file and one
unrelated file. -/
theorem c6_bg_param_file_structure_witness :
    ∃ header tide_params river_params,
      get_bg_flood_model_inputs "/dem/cat.nc" "z" "10" "100" "900" "9999" "0" "0"
          "/out/o.nc" RainInputType.uniform
          ["left_bnd.txt", "river1_10_20.txt", "README.md"] =
        header ++ tide_params ++ river_params ∧
      (∀ k ∈ (["rain", "topo", "dx", "outputtimestep", "endtime", "mask", "gpudevice",
               "smallnc", "outfile", "outvars"] : List String),
        header.countP (fun p => p.1 == k) = 1) ∧
      tide_params.length =
        (["left_bnd.txt", "river1_10_20.txt", "README.md"] : List String).countP
          isTideInputFile ∧
      (∀ p ∈ tide_params,
        ∃ n ∈ (["left_bnd.txt", "river1_10_20.txt", "README.md"] : List String),
          isTideInputFile n = true ∧ p = ((process_tide_input_files n).1, n ++ ",2")) ∧
      river_params.length =
        (["left_bnd.txt", "river1_10_20.txt", "README.md"] : List String).countP
          isRiverInputFile ∧
      (∀ p ∈ river_params, p.1 = "river" ∧
        ∃ n ∈ (["left_bnd.txt", "river1_10_20.txt", "README.md"] : List String),
          isRiverInputFile n = true ∧ p.2 = (process_river_input_files n).1) :=
  c6_bg_param_file_structure "/dem/cat.nc" "z" "10" "100" "900" "9999" "0" "0"
    "/out/o.nc" RainInputType.uniform ["left_bnd.txt", "river1_10_20.txt", "README.md"]

/-- Membership in the accumulator form of drop_duplicates. -/
theorem mem_dedupFirstAux {α : Type} [DecidableEq α] (x : α) (l : List α) :
    ∀ seen, x ∈ dedupFirstAux seen l ↔ (x ∈ l ∧ x ∉ seen) := by
  induction l with
  | nil => intro seen; simp [dedupFirstAux]
  | cons a rest ih =>
    intro seen
    by_cases ha : a ∈ seen
    · rw [show dedupFirstAux seen (a :: rest) =
          (if a ∈ seen then dedupFirstAux seen rest
           else a :: dedupFirstAux (a :: seen) rest) from rfl,
        if_pos ha, ih seen]
      constructor
      · rintro ⟨h1, h2⟩
        exact ⟨List.mem_cons_of_mem a h1, h2⟩
      · rintro ⟨h1, h2⟩
        rcases List.mem_cons.mp h1 with rfl | h1
        · exact absurd ha h2
        · exact ⟨h1, h2⟩
    · rw [show dedupFirstAux seen (a :: rest) =
          (if a ∈ seen then dedupFirstAux seen rest
           else a :: dedupFirstAux (a :: seen) rest) from rfl,
        if_neg ha]
      simp only [List.mem_cons, ih (a :: seen)]
      constructor
      · rintro (rfl | ⟨h1, h2⟩)
        · exact ⟨Or.inl rfl, ha⟩
        · exact ⟨Or.inr h1, fun hs => h2 (Or.inr hs)⟩
      · rintro ⟨rfl | h1, h2⟩
        · exact Or.inl rfl
        · by_cases hxa : x = a
          · exact Or.inl hxa
          · exact Or.inr ⟨h1, fun hs => hs.elim hxa h2⟩

/-- drop_duplicates preserves membership. -/
theorem mem_dedupFirst {α : Type} [DecidableEq α] (x : α) (l : List α) :
    x ∈ dedupFirst l ↔ x ∈ l := by
  rw [dedupFirst, mem_dedupFirstAux]
  simp

/-- Characterisation of membership in the left spatial join. -/
theorem mem_sjoin_left_within {G : Type} (within : G → G → Bool)
    (rec1_data : List (Rec1Row G)) (sdc_data : List (SdcRow G)) (j : Rec1JoinRow G) :
    j ∈ sjoin_left_within within rec1_data sdc_data ↔
      ∃ r, r ∈ rec1_data ∧ j.objectid = r.objectid ∧ j.geometry = r.geometry ∧
        ((j.catch_id = none ∧
            sdc_data.filter (fun s => within r.geometry s.geometry) = []) ∨
         (∃ s ∈ sdc_data, within r.geometry s.geometry = true ∧
            j.catch_id = some s.catch_id)) := by
  unfold sjoin_left_within
  rw [List.mem_flatMap]
  apply exists_congr
  intro r
  apply and_congr_right
  intro _
  unfold sjoinRowsFor
  rcases hfil : sdc_data.filter (fun s => within r.geometry s.geometry) with _ | ⟨s0, ss⟩
  · have hno : ∀ s ∈ sdc_data, ¬ within r.geometry s.geometry = true := by
      intro s hs hw
      have : s ∈ sdc_data.filter (fun s => within r.geometry s.geometry) :=
        List.mem_filter.mpr ⟨hs, hw⟩
      rw [hfil] at this
      cases this
    rw [hfil]
    simp only [List.map_nil, List.isEmpty_nil, if_true]
    constructor
    · intro hj
      have hj2 := List.mem_singleton.mp hj
      subst hj2
      exact ⟨rfl, rfl, Or.inl ⟨rfl, by simp⟩⟩
    · rintro ⟨h1, h2, (⟨h3, _⟩ | ⟨s, hs, hw, _⟩)⟩
      · apply List.mem_singleton.mpr
        cases j
        simp_all
      · exact absurd hw (hno s hs)
  · have hsub : ∀ s, s ∈ s0 :: ss → s ∈ sdc_data ∧ within r.geometry s.geometry = true := by
      intro s hs
      have hmem : s ∈ sdc_data.filter (fun s => within r.geometry s.geometry) := by
        rw [hfil]; exact hs
      exact ⟨(List.mem_filter.mp hmem).1, (List.mem_filter.mp hmem).2⟩
    rw [hfil]
    simp only [List.map_cons, List.isEmpty_cons, Bool.false_eq_true, if_false]
    constructor
    · intro hj
      rcases List.mem_cons.mp hj with rfl | hj2
      · exact ⟨rfl, rfl, Or.inr ⟨s0, (hsub s0 (List.mem_cons_self s0 ss)).1,
          (hsub s0 (List.mem_cons_self s0 ss)).2, rfl⟩⟩
      · obtain ⟨s, hsss, rfl⟩ := List.mem_map.mp hj2
        exact ⟨rfl, rfl, Or.inr ⟨s, (hsub s (List.mem_cons_of_mem s0 hsss)).1,
          (hsub s (List.mem_cons_of_mem s0 hsss)).2, rfl⟩⟩
    · rintro ⟨h1, h2, (⟨_, h4⟩ | ⟨s, hs, hw, h5⟩)⟩
      · exact absurd h4 (List.cons_ne_nil s0 ss)
      · have hsmem : s ∈ s0 :: ss := by
          rw [← hfil]
          exact List.mem_filter.mpr ⟨hs, hw⟩
        rcases List.mem_cons.mp hsmem with rfl | hsss
        · have hjeq : j = (⟨r.objectid, r.geometry, some s.catch_id⟩ : Rec1JoinRow G) := by
            cases j
            simp_all
          rw [hjeq]
          exact List.mem_cons_self _ _
        · apply List.mem_cons_of_mem
          apply List.mem_map.mpr
          exact ⟨s, hsss, by cases j; simp_all⟩

/-- The join rows with absent catch_id are exactly one row per reach contained
in no sea-draining catchment, in reach order. -/
theorem sjoin_filter_isNone {G : Type} (within : G → G → Bool)
    (rec1_data : List (Rec1Row G)) (sdc_data : List (SdcRow G)) :
    (sjoin_left_within within rec1_data sdc_data).filter
        (fun r => r.catch_id.isNone) =
      (rec1_data.filter (fun r =>
          (sdc_data.filter (fun s => within r.geometry s.geometry)).isEmpty)).map
        (fun r => ({ objectid := r.objectid, geometry := r.geometry,
                     catch_id := none } : Rec1JoinRow G)) := by
  induction rec1_data with
  | nil => rfl
  | cons r rest ih =>
    unfold sjoin_left_within at ih ⊢
    simp only [List.flatMap_cons, List.filter_append, ih, List.filter_cons]
    rcases hfil : sdc_data.filter (fun s => within r.geometry s.geometry) with _ | ⟨s0, ss⟩
    · simp [sjoinRowsFor, hfil]
    · simp [sjoinRowsFor, hfil, List.filter_map, Function.comp]

/-- C2 counterexample: a reach (objectid 5) lying within two overlapping
sea-draining catchments (catch_id 1 and 2) is returned twice — drop_duplicates
removes only rows equal on every column, and the two rows differ in catch_id —
so the objectid column of the returned frame is not duplicate-free. -/
theorem c2_duplicate_objectid_counterexample :
    ((@get_rec1_data_with_sdc_from_db Nat _ (fun g _ => g == 20)
        [{ objectid := 5, geometry := 20 }]
        [{ catch_id := 1, geometry := 10 }, { catch_id := 2, geometry := 11 }] 7).1.map
      (fun row => (row.objectid, row.catch_id))) = [(5, 1), (5, 2)] ∧
    ¬ ((@get_rec1_data_with_sdc_from_db Nat _ (fun g _ => g == 20)
        [{ objectid := 5, geometry := 20 }]
        [{ catch_id := 1, geometry := 10 }, { catch_id := 2, geometry := 11 }] 7).1.map
      (fun row => row.objectid)).Nodup := by
  refine ⟨by decide, by decide⟩

/-- C2 (amended): every reach returned by get_rec1_data_with_sdc_from_db
carries the integer catch_id of a sea-draining catchment that actually
contains it; the rows are whole-row deduplicated and sorted in ascending
objectid order — a reach fully within several (overlapping) catchments keeps
one row per catchment, so an objectid may repeat; exactly the fetched reaches
contained in at least one sea-draining catchment are returned; and every
fetched reach contained in none is recorded exactly once as a network
exclusion with cause "crossing multiple sea-draining catchments" for the given
river_network_id. -/
theorem c2_rec1_with_sdc_characterisation {G : Type} [DecidableEq G]
    (within : G → G → Bool) (rec1_data : List (Rec1Row G))
    (sdc_data : List (SdcRow G)) (river_network_id : Int) :
    List.Sorted (fun a b : Rec1SdcRow G => a.objectid ≤ b.objectid)
      (get_rec1_data_with_sdc_from_db within rec1_data sdc_data river_network_id).1 ∧
    (∀ row ∈ (get_rec1_data_with_sdc_from_db within rec1_data sdc_data
        river_network_id).1,
      (∃ r ∈ rec1_data, row.objectid = r.objectid ∧ row.geometry = r.geometry) ∧
      (∃ s ∈ sdc_data, within row.geometry s.geometry = true ∧
        row.catch_id = s.catch_id)) ∧
    (get_rec1_data_with_sdc_from_db within rec1_data sdc_data river_network_id).2 =
      (rec1_data.filter (fun r =>
          (sdc_data.filter (fun s => within r.geometry s.geometry)).isEmpty)).map
        (fun r => ({ river_network_id := river_network_id, objectid := r.objectid,
                     geometry := r.geometry,
                     exclusion_cause := "crossing multiple sea-draining catchments" } :
          NetworkExclusion G)) ∧
    (∀ r ∈ rec1_data,
      (∃ s ∈ sdc_data, within r.geometry s.geometry = true) ↔
        (∃ row ∈ (get_rec1_data_with_sdc_from_db within rec1_data sdc_data
            river_network_id).1,
          row.objectid = r.objectid ∧ row.geometry = r.geometry)) := by
  have hmem : ∀ j : Rec1JoinRow G,
      (j ∈ (dedupFirst ((sjoin_left_within within rec1_data sdc_data).filter
          (fun x => x.catch_id.isSome))).insertionSort joinRowLe) ↔
      (j ∈ sjoin_left_within within rec1_data sdc_data ∧ j.catch_id.isSome = true) := by
    intro j
    rw [(List.perm_insertionSort joinRowLe _).mem_iff, mem_dedupFirst, List.mem_filter]
  refine ⟨?_, ?_, ?_, ?_⟩
  · -- sortedness
    have hs : List.Sorted joinRowLe
        ((dedupFirst ((sjoin_left_within within rec1_data sdc_data).filter
          (fun x => x.catch_id.isSome))).insertionSort joinRowLe) :=
      List.sorted_insertionSort joinRowLe _
    exact hs.map _ (fun a b hab => hab)
  · -- provenance of every returned row
    intro row hrow
    obtain ⟨j, hj, rfl⟩ := List.mem_map.mp hrow
    obtain ⟨hjoin, hsome⟩ := (hmem j).mp hj
    obtain ⟨r, hr, hobj, hgeom, hdisj⟩ := (mem_sjoin_left_within within _ _ j).mp hjoin
    rcases hdisj with ⟨hnone, _⟩ | ⟨s, hs, hw, hcid⟩
    · rw [hnone] at hsome
      cases hsome
    · refine ⟨⟨r, hr, hobj, hgeom⟩, ⟨s, hs, ?_, ?_⟩⟩
      · rw [hgeom]
        exact hw
      · rw [hcid]
        rfl
  · -- the stored exclusions
    show add_network_exclusions_to_db river_network_id
        ((sjoin_left_within within rec1_data sdc_data).filter
          (fun x => x.catch_id.isNone)) "crossing multiple sea-draining catchments" = _
    rw [add_network_exclusions_to_db, sjoin_filter_isNone, List.map_map]
    rfl
  · -- returned exactly when contained in at least one catchment
    intro r hr
    constructor
    · rintro ⟨s, hs, hw⟩
      refine ⟨⟨r.objectid, r.geometry, (some s.catch_id).getD 0⟩, ?_, rfl, rfl⟩
      apply List.mem_map.mpr
      refine ⟨⟨r.objectid, r.geometry, some s.catch_id⟩, ?_, rfl⟩
      apply (hmem _).mpr
      refine ⟨?_, rfl⟩
      exact (mem_sjoin_left_within within _ _ _).mpr
        ⟨r, hr, rfl, rfl, Or.inr ⟨s, hs, hw, rfl⟩⟩
    · rintro ⟨row, hrow, hobj, hgeom⟩
      obtain ⟨j, hj, rfl⟩ := List.mem_map.mp hrow
      obtain ⟨hjoin, hsome⟩ := (hmem j).mp hj
      obtain ⟨r2, hr2, hobj2, hgeom2, hdisj⟩ := (mem_sjoin_left_within within _ _ j).mp hjoin
      rcases hdisj with ⟨hnone, _⟩ | ⟨s, hs, hw, _⟩
      · rw [hnone] at hsome
        cases hsome
      · refine ⟨s, hs, ?_⟩
        have hjr : j.geometry = r.geometry := hgeom
        rw [← hjr, hgeom2]
        exact hw

/-- C2 witness: with one sea-draining catchment containing reach 3 (and not
reach 1), reach 3 is returned. -/
theorem c2_rec1_with_sdc_characterisation_witness :
    ∃ row ∈ (@get_rec1_data_with_sdc_from_db Nat _ (fun g s => decide (g < s))
        [{ objectid := 3, geometry := 2 }, { objectid := 1, geometry := 9 }]
        [{ catch_id := 4, geometry := 5 }] 11).1,
      row.objectid = 3 ∧ row.geometry = 2 :=
  ((@c2_rec1_with_sdc_characterisation Nat _ (fun g s => decide (g < s))
      [{ objectid := 3, geometry := 2 }, { objectid := 1, geometry := 9 }]
      [{ catch_id := 4, geometry := 5 }] 11).2.2.2
    { objectid := 3, geometry := 2 } (by decide)).mp
    ⟨{ catch_id := 4, geometry := 5 }, by decide, by decide⟩

/-- Labels the segment loop can produce, and the equality each label
certifies: left/right tie the midpoint x to the x of the lexicographically
extremal tuples, bot/top tie the midpoint y to the y those tuples carry. -/
theorem classifySegments_mem_label (m M : Point) :
    ∀ (pairs : List (Point × Point)) (segs : List BoundarySegment),
      classifySegments m M pairs = Except.ok segs →
      ∀ seg ∈ segs,
        seg.line_position ∈ (["left", "right", "bot", "top"] : List String) ∧
        (seg.line_position = "left" → seg.centroid.1 = m.1) ∧
        (seg.line_position = "right" → seg.centroid.1 = M.1) ∧
        (seg.line_position = "bot" → seg.centroid.2 = m.2) ∧
        (seg.line_position = "top" → seg.centroid.2 = M.2) := by
  intro pairs
  induction pairs with
  | nil =>
    intro segs h seg hseg
    simp only [classifySegments] at h
    cases h
    cases hseg
  | cons se rest ih =>
    intro segs h seg hseg
    simp only [classifySegments] at h
    split at h
    · cases h
    · cases h
    · rename_i s tail heq hrec
      cases h
      rcases List.mem_cons.mp hseg with rfl | hmem
      · split_ifs at heq with h1 h2 h3 h4
        · cases heq
          exact ⟨by simp, fun _ => h1, fun hc => absurd hc (by simp),
            fun hc => absurd hc (by simp), fun hc => absurd hc (by simp)⟩
        · cases heq
          exact ⟨by simp, fun hc => absurd hc (by simp), fun _ => h2,
            fun hc => absurd hc (by simp), fun hc => absurd hc (by simp)⟩
        · cases heq
          exact ⟨by simp, fun hc => absurd hc (by simp),
            fun hc => absurd hc (by simp), fun _ => h3, fun hc => absurd hc (by simp)⟩
        · cases heq
          exact ⟨by simp, fun hc => absurd hc (by simp),
            fun hc => absurd hc (by simp), fun hc => absurd hc (by simp), fun _ => h4⟩
      · exact ih tail hrec seg hmem

/-- C3 counterexample: on the simple polygon with exterior ring
(0,2), (2,2), (6,-2), (6,0), (0,4), (0,2) the first segment is labelled bot
with midpoint (1, 2) — but the ring-wide y range is [-2, 4] and x range
[0, 6], so the midpoint coordinate equals none of the ring-wide extrema and
the claim would require an InvalidGeometry failure instead; the comparison the
code actually makes is against min(coords)[1] = 2 and max(coords)[1] = 0, the
y coordinates of the lexicographically extremal vertices (0,2) and (6,0). -/
theorem c3_label_without_global_extremum_counterexample :
    get_catchment_boundary_info
        [((0 : ℚ), (2 : ℚ)), (2, 2), (6, -2), (6, 0), (0, 4), (0, 2)] =
      Except.ok
        [{ line_position := "bot", centroid := (1, 2), boundary := ((0, 2), (2, 2)) },
         { line_position := "top", centroid := (4, 0), boundary := ((2, 2), (6, -2)) },
         { line_position := "right", centroid := (6, -1), boundary := ((6, -2), (6, 0)) },
         { line_position := "bot", centroid := (3, 2), boundary := ((6, 0), (0, 4)) },
         { line_position := "left", centroid := (0, 3), boundary := ((0, 4), (0, 2)) }] ∧
    ([((0 : ℚ), (2 : ℚ)), (2, 2), (6, -2), (6, 0), (0, 4), (0, 2)].map Prod.snd).min? =
      some (-2) ∧
    ([((0 : ℚ), (2 : ℚ)), (2, 2), (6, -2), (6, 0), (0, 4), (0, 2)].map Prod.snd).max? =
      some 4 ∧
    ([((0 : ℚ), (2 : ℚ)), (2, 2), (6, -2), (6, 0), (0, 4), (0, 2)].map Prod.fst).min? =
      some 0 ∧
    ([((0 : ℚ), (2 : ℚ)), (2, 2), (6, -2), (6, 0), (0, 4), (0, 2)].map Prod.fst).max? =
      some 6 ∧
    ¬ ((2 : ℚ) = -2 ∨ (2 : ℚ) = 4) ∧ ¬ ((1 : ℚ) = 0 ∨ (1 : ℚ) = 6) := by
  refine ⟨?_, by norm_num [List.min?, min_def], by norm_num [List.max?, max_def],
    by norm_num [List.min?, min_def], by norm_num [List.max?, max_def],
    by norm_num, by norm_num⟩
  norm_num [get_catchment_boundary_info, classifySegments, adjPairs, pyMin, pyMax,
    pyMinStep, pyMaxStep, pyPairLt, List.foldl]

/-- Success of the segment loop returns one row per walked vertex pair, in
order, and each row's label is decided by the FIRST matching rule among left,
right, bot, top — an iff in both directions for every label. -/
theorem classifySegments_ok_spec (m M : Point) :
    ∀ (pairs : List (Point × Point)) (segs : List BoundarySegment),
      classifySegments m M pairs = Except.ok segs →
      segs.map (fun s => s.boundary) = pairs ∧
      ∀ seg ∈ segs,
        seg.centroid = ((seg.boundary.1.1 + seg.boundary.2.1) / 2,
                        (seg.boundary.1.2 + seg.boundary.2.2) / 2) ∧
        (seg.line_position = "left" ↔ seg.centroid.1 = m.1) ∧
        (seg.line_position = "right" ↔
          (¬ seg.centroid.1 = m.1 ∧ seg.centroid.1 = M.1)) ∧
        (seg.line_position = "bot" ↔
          (¬ seg.centroid.1 = m.1 ∧ ¬ seg.centroid.1 = M.1 ∧
            seg.centroid.2 = m.2)) ∧
        (seg.line_position = "top" ↔
          (¬ seg.centroid.1 = m.1 ∧ ¬ seg.centroid.1 = M.1 ∧
            ¬ seg.centroid.2 = m.2 ∧ seg.centroid.2 = M.2)) := by
  intro pairs
  induction pairs with
  | nil =>
    intro segs h
    simp only [classifySegments] at h
    cases h
    exact ⟨rfl, fun seg hseg => absurd hseg (List.not_mem_nil seg)⟩
  | cons se rest ih =>
    intro segs h
    simp only [classifySegments] at h
    split at h
    · cases h
    · cases h
    · rename_i s tail heq hrec
      cases h
      obtain ⟨ihmap, ihmem⟩ := ih tail hrec
      split_ifs at heq with h1 h2 h3 h4
      · cases heq
        refine ⟨?_, fun seg hseg => ?_⟩
        · rw [List.map_cons, ihmap]
        · rcases List.mem_cons.mp hseg with rfl | hmem
          · exact ⟨rfl, iff_of_true rfl h1,
              iff_of_false (by simp) (fun hc => hc.1 h1),
              iff_of_false (by simp) (fun hc => hc.1 h1),
              iff_of_false (by simp) (fun hc => hc.1 h1)⟩
          · exact ihmem seg hmem
      · cases heq
        refine ⟨?_, fun seg hseg => ?_⟩
        · rw [List.map_cons, ihmap]
        · rcases List.mem_cons.mp hseg with rfl | hmem
          · exact ⟨rfl, iff_of_false (by simp) h1,
              iff_of_true rfl ⟨h1, h2⟩,
              iff_of_false (by simp) (fun hc => hc.2.1 h2),
              iff_of_false (by simp) (fun hc => hc.2.1 h2)⟩
          · exact ihmem seg hmem
      · cases heq
        refine ⟨?_, fun seg hseg => ?_⟩
        · rw [List.map_cons, ihmap]
        · rcases List.mem_cons.mp hseg with rfl | hmem
          · exact ⟨rfl, iff_of_false (by simp) h1,
              iff_of_false (by simp) (fun hc => h2 hc.2),
              iff_of_true rfl ⟨h1, h2, h3⟩,
              iff_of_false (by simp) (fun hc => hc.2.2.1 h3)⟩
          · exact ihmem seg hmem
      · cases heq
        refine ⟨?_, fun seg hseg => ?_⟩
        · rw [List.map_cons, ihmap]
        · rcases List.mem_cons.mp hseg with rfl | hmem
          · exact ⟨rfl, iff_of_false (by simp) h1,
              iff_of_false (by simp) (fun hc => h2 hc.2),
              iff_of_false (by simp) (fun hc => h3 hc.2.2),
              iff_of_true rfl ⟨h1, h2, h3, h4⟩⟩
          · exact ihmem seg hmem

/-- Any error the segment loop raises carries the one ValueError message of
the source. -/
theorem classifySegments_error_msg (m M : Point) :
    ∀ (pairs : List (Point × Point)) (e : String),
      classifySegments m M pairs = Except.error e →
      e = "Failed to identify catchment boundary line position." := by
  intro pairs
  induction pairs with
  | nil =>
    intro e h
    simp only [classifySegments] at h
    cases h
  | cons se rest ih =>
    intro e h
    simp only [classifySegments] at h
    split at h
    · rename_i e2 heq
      cases h
      split_ifs at heq
      cases heq
      rfl
    · rename_i s e2 heq hrec
      cases h
      exact ih _ hrec
    · cases h

/-- A successful segment loop certifies that every walked vertex pair's
midpoint matched at least one of the four rules. -/
theorem classifySegments_ok_matched (m M : Point) :
    ∀ (pairs : List (Point × Point)) (segs : List BoundarySegment),
      classifySegments m M pairs = Except.ok segs →
      ∀ se ∈ pairs,
        (se.1.1 + se.2.1) / 2 = m.1 ∨ (se.1.1 + se.2.1) / 2 = M.1 ∨
        (se.1.2 + se.2.2) / 2 = m.2 ∨ (se.1.2 + se.2.2) / 2 = M.2 := by
  intro pairs
  induction pairs with
  | nil =>
    intro segs _ se hse
    cases hse
  | cons p rest ih =>
    intro segs h se hse
    simp only [classifySegments] at h
    split at h
    · cases h
    · cases h
    · rename_i s tail heq hrec
      rcases List.mem_cons.mp hse with rfl | hmem
      · split_ifs at heq with h1 h2 h3 h4
        · exact Or.inl h1
        · exact Or.inr (Or.inl h2)
        · exact Or.inr (Or.inr (Or.inl h3))
        · exact Or.inr (Or.inr (Or.inr h4))
      · exact ih tail hrec se hmem

/-- C3 (amended): get_catchment_boundary_info walks the ring's consecutive
vertex pairs, producing one row per pair exactly when every pair classifies,
and labels each row by the FIRST matching rule, tried in the order left,
right, bot, top: left exactly when the midpoint x equals the x of the
lexicographically smallest coordinate tuple (the ring-wide min x), right
exactly when that fails and it equals the x of the lexicographically greatest
tuple (max x), bot exactly when both x rules fail and the midpoint y equals
the y CARRIED BY the lexicographically smallest tuple — not the ring-wide
minimum y — and top exactly when additionally that fails and the midpoint y
equals the y carried by the lexicographically greatest tuple; when a segment
matches none of the rules the call fails with the InvalidGeometry ValueError;
on an axis-aligned rectangle traversed from its bottom-left corner all four
edges are classified bot, right, top, left with no error. -/
theorem c3_boundary_info_characterisation :
    (∀ (boundary_lines : List Point) (segs : List BoundarySegment),
      get_catchment_boundary_info boundary_lines = Except.ok segs →
      segs.map (fun s => s.boundary) = adjPairs boundary_lines ∧
      ∀ seg ∈ segs,
        seg.centroid = ((seg.boundary.1.1 + seg.boundary.2.1) / 2,
                        (seg.boundary.1.2 + seg.boundary.2.2) / 2) ∧
        (seg.line_position = "left" ↔
          seg.centroid.1 = ((pyMin boundary_lines).getD (0, 0)).1) ∧
        (seg.line_position = "right" ↔
          (¬ seg.centroid.1 = ((pyMin boundary_lines).getD (0, 0)).1 ∧
            seg.centroid.1 = ((pyMax boundary_lines).getD (0, 0)).1)) ∧
        (seg.line_position = "bot" ↔
          (¬ seg.centroid.1 = ((pyMin boundary_lines).getD (0, 0)).1 ∧
            ¬ seg.centroid.1 = ((pyMax boundary_lines).getD (0, 0)).1 ∧
            seg.centroid.2 = ((pyMin boundary_lines).getD (0, 0)).2)) ∧
        (seg.line_position = "top" ↔
          (¬ seg.centroid.1 = ((pyMin boundary_lines).getD (0, 0)).1 ∧
            ¬ seg.centroid.1 = ((pyMax boundary_lines).getD (0, 0)).1 ∧
            ¬ seg.centroid.2 = ((pyMin boundary_lines).getD (0, 0)).2 ∧
            seg.centroid.2 = ((pyMax boundary_lines).getD (0, 0)).2))) ∧
    (∀ (boundary_lines : List Point) (se : Point × Point),
      se ∈ adjPairs boundary_lines →
      ¬ ((se.1.1 + se.2.1) / 2 = ((pyMin boundary_lines).getD (0, 0)).1) →
      ¬ ((se.1.1 + se.2.1) / 2 = ((pyMax boundary_lines).getD (0, 0)).1) →
      ¬ ((se.1.2 + se.2.2) / 2 = ((pyMin boundary_lines).getD (0, 0)).2) →
      ¬ ((se.1.2 + se.2.2) / 2 = ((pyMax boundary_lines).getD (0, 0)).2) →
      get_catchment_boundary_info boundary_lines =
        Except.error "Failed to identify catchment boundary line position.") ∧
    (∀ x0 x1 y0 y1 : ℚ, x0 < x1 → y0 < y1 →
      get_catchment_boundary_info [(x0, y0), (x1, y0), (x1, y1), (x0, y1), (x0, y0)] =
        Except.ok
          [{ line_position := "bot", centroid := ((x0 + x1) / 2, y0),
             boundary := ((x0, y0), (x1, y0)) },
           { line_position := "right", centroid := (x1, (y0 + y1) / 2),
             boundary := ((x1, y0), (x1, y1)) },
           { line_position := "top", centroid := ((x1 + x0) / 2, y1),
             boundary := ((x1, y1), (x0, y1)) },
           { line_position := "left", centroid := (x0, (y1 + y0) / 2),
             boundary := ((x0, y1), (x0, y0)) }]) := by
  refine ⟨?_, ?_, ?_⟩
  · intro boundary_lines segs h
    exact classifySegments_ok_spec ((pyMin boundary_lines).getD (0, 0))
      ((pyMax boundary_lines).getD (0, 0)) (adjPairs boundary_lines) segs h
  · intro boundary_lines se hse h1 h2 h3 h4
    rcases hres : get_catchment_boundary_info boundary_lines with e | segs
    · have hmsg := classifySegments_error_msg ((pyMin boundary_lines).getD (0, 0))
        ((pyMax boundary_lines).getD (0, 0)) (adjPairs boundary_lines) e hres
      rw [hmsg]
    · rcases classifySegments_ok_matched ((pyMin boundary_lines).getD (0, 0))
        ((pyMax boundary_lines).getD (0, 0)) (adjPairs boundary_lines) segs hres
        se hse with hc | hc | hc | hc
      · exact absurd hc h1
      · exact absurd hc h2
      · exact absurd hc h3
      · exact absurd hc h4
  · intro x0 x1 y0 y1 hx hy
    have k1 : ¬ pyPairLt (x1, y0) (x0, y0) := by
      simp only [pyPairLt]
      rintro (h | ⟨h, _⟩) <;> linarith
    have k2 : ¬ pyPairLt (x1, y1) (x0, y0) := by
      simp only [pyPairLt]
      rintro (h | ⟨h, _⟩) <;> linarith
    have k3 : ¬ pyPairLt (x0, y1) (x0, y0) := by
      simp only [pyPairLt]
      rintro (h | ⟨_, h⟩) <;> linarith
    have k4 : ¬ pyPairLt (x0, y0) (x0, y0) := by
      simp only [pyPairLt]
      rintro (h | ⟨_, h⟩) <;> linarith
    have hmin : pyMin [(x0, y0), (x1, y0), (x1, y1), (x0, y1), (x0, y0)] =
        some (x0, y0) := by
      simp only [pyMin, List.foldl, pyMinStep, if_neg k1, if_neg k2, if_neg k3, if_neg k4]
    have kp1 : pyPairLt (x0, y0) (x1, y0) := Or.inl hx
    have kp2 : pyPairLt (x1, y0) (x1, y1) := Or.inr ⟨rfl, hy⟩
    have kn3 : ¬ pyPairLt (x1, y1) (x0, y1) := by
      simp only [pyPairLt]
      rintro (h | ⟨h, _⟩) <;> linarith
    have kn4 : ¬ pyPairLt (x1, y1) (x0, y0) := by
      simp only [pyPairLt]
      rintro (h | ⟨h, _⟩) <;> linarith
    have hmax : pyMax [(x0, y0), (x1, y0), (x1, y1), (x0, y1), (x0, y0)] =
        some (x1, y1) := by
      simp only [pyMax, List.foldl, pyMaxStep, if_pos kp1, if_pos kp2,
        if_neg kn3, if_neg kn4]
    have p1 : (y0 + y0) / 2 = y0 := by ring
    have p2 : (x1 + x1) / 2 = x1 := by ring
    have p3 : (y1 + y1) / 2 = y1 := by ring
    have p4 : (x0 + x0) / 2 = x0 := by ring
    have n1 : ¬ ((x0 + x1) / 2 = x0) := by intro h; linarith
    have n2 : ¬ ((x0 + x1) / 2 = x1) := by intro h; linarith
    have n3 : ¬ ((x1 + x0) / 2 = x0) := by intro h; linarith
    have n4 : ¬ ((x1 + x0) / 2 = x1) := by intro h; linarith
    have n5 : ¬ (y1 = y0) := by intro h; linarith
    have n6 : ¬ (x1 = x0) := by intro h; linarith
    unfold get_catchment_boundary_info
    rw [hmin, hmax]
    simp [classifySegments, adjPairs, p1, p2, p3, p4, n1, n2, n3, n4, n5, n6]

/-- C3 witness: the axis-aligned rectangle with corners (0,0) and (4,2)
classifies all four edges, while the triangle (0,0), (4,0), (2,3) — whose
second segment midpoint (3, 3/2) matches no rule — raises the ValueError. -/
theorem c3_boundary_info_characterisation_witness :
    get_catchment_boundary_info
        [((0 : ℚ), (0 : ℚ)), (4, 0), (4, 2), (0, 2), (0, 0)] =
      Except.ok
        [{ line_position := "bot", centroid := (2, 0), boundary := ((0, 0), (4, 0)) },
         { line_position := "right", centroid := (4, 1), boundary := ((4, 0), (4, 2)) },
         { line_position := "top", centroid := (2, 2), boundary := ((4, 2), (0, 2)) },
         { line_position := "left", centroid := (0, 1), boundary := ((0, 2), (0, 0)) }] ∧
    get_catchment_boundary_info [((0 : ℚ), (0 : ℚ)), (4, 0), (2, 3), (0, 0)] =
      Except.error "Failed to identify catchment boundary line position." := by
  constructor
  · have h := c3_boundary_info_characterisation.2.2 0 4 0 2 (by norm_num) (by norm_num)
    rw [h]
    norm_num
  · exact c3_boundary_info_characterisation.2.1
      [((0 : ℚ), (0 : ℚ)), (4, 0), (2, 3), (0, 0)] ((4, 0), (2, 3))
      (by norm_num [adjPairs])
      (by norm_num [pyMin, pyMax, pyMinStep, pyMaxStep, pyPairLt, List.foldl])
      (by norm_num [pyMin, pyMax, pyMinStep, pyMaxStep, pyPairLt, List.foldl])
      (by norm_num [pyMin, pyMax, pyMinStep, pyMaxStep, pyPairLt, List.foldl])
      (by norm_num [pyMin, pyMax, pyMinStep, pyMaxStep, pyPairLt, List.foldl])

/-- C4 counterexample: a catchment wholly inside regional coverage (empty
difference) with a coastline inside the buffer, whose triangular ring
(0,0), (4,0), (2,3) has a slanted segment no classification rule matches:
get_tide_query_locations raises InvalidGeometry instead of returning the one
labelled point the claim promises. -/
theorem c4_invalid_geometry_instead_of_point_counterexample :
    @get_tide_query_locations Unit Unit
        (fun _ => [()]) (fun _ => ((0 : ℚ), (0 : ℚ))) (fun _ _ => 0) (fun _ _ => 0)
        (fun p => p) [((0 : ℚ), (0 : ℚ)), (4, 0), (2, 3), (0, 0)] [] [()] =
      Except.error (TideError.invalid_geometry
        "Failed to identify catchment boundary line position.") := by
  norm_num [get_tide_query_locations, get_catchment_boundary_centroids,
    get_catchment_boundary_info, classifySegments, adjPairs, pyMin, pyMax,
    pyMinStep, pyMaxStep, pyPairLt, List.foldl, Except.map]

/-- C4 (amended): for a catchment whose difference with the clipped regional
coverage is empty, with a coastline feature found within the buffer, and whose
boundary segments all classify (a non-empty ok result of the boundary walk),
get_tide_query_locations returns exactly one point — the centroid of one
boundary segment, reprojected through the EPSG:4326 transform — labelled with
one of left/right/bot/top, in a frame whose CRS is 4326; when some boundary
segment fails to classify the call instead propagates InvalidGeometry. -/
theorem c4_tide_query_single_point {Piece Geom : Type}
    (explode : Piece → List Piece) (pieceCentroid : Piece → Point)
    (distToSegment : Point → Point × Point → ℚ) (distToGeom : Point → Geom → ℚ)
    (toCrs4326 : Point → Point) (catchment_coords : List Point)
    (coastline : List Geom) (segs : List BoundarySegment)
    (hclass : get_catchment_boundary_info catchment_coords = Except.ok segs)
    (hne : segs ≠ []) (hcoast : coastline ≠ []) :
    ∃ b ∈ segs,
      get_tide_query_locations explode pieceCentroid distToSegment distToGeom toCrs4326
          catchment_coords [] coastline =
        Except.ok { rows := [{ position := b.line_position,
                               geometry := toCrs4326 b.centroid }], crs := 4326 } ∧
      b.line_position ∈ (["left", "right", "bot", "top"] : List String) := by
  rcases coastline with _ | ⟨g, t⟩
  · exact absurd rfl hcoast
  have hcent : get_catchment_boundary_centroids catchment_coords =
      Except.ok (segs.map fun s =>
        ({ line_position := s.line_position, geometry := s.centroid } :
          BoundaryCentroidRow)) := by
    unfold get_catchment_boundary_centroids
    rw [hclass]
    rfl
  obtain ⟨hd, tl, hsort⟩ : ∃ hd tl,
      ((segs.map fun s =>
          ({ line_position := s.line_position, geometry := s.centroid } :
            BoundaryCentroidRow)).map
        (fun b => (b, distToGeom b.geometry g))).insertionSort distToCoastLe =
        hd :: tl := by
    have hlen := (List.perm_insertionSort distToCoastLe
      ((segs.map fun s =>
          ({ line_position := s.line_position, geometry := s.centroid } :
            BoundaryCentroidRow)).map
        (fun b => (b, distToGeom b.geometry g)))).length_eq
    rcases hs : ((segs.map fun s =>
        ({ line_position := s.line_position, geometry := s.centroid } :
          BoundaryCentroidRow)).map
      (fun b => (b, distToGeom b.geometry g))).insertionSort distToCoastLe with _ | ⟨hd, tl⟩
    · rw [hs] at hlen
      rcases segs with _ | ⟨c0, cs⟩
      · exact absurd rfl hne
      · simp at hlen
    · exact ⟨hd, tl, hs⟩
  have hhd : hd ∈ ((segs.map fun s =>
      ({ line_position := s.line_position, geometry := s.centroid } :
        BoundaryCentroidRow)).map
    (fun b => (b, distToGeom b.geometry g))) := by
    rw [← (List.perm_insertionSort distToCoastLe _).mem_iff]
    rw [hsort]
    exact List.mem_cons_self hd tl
  obtain ⟨b, hb, hbeq⟩ : ∃ seg ∈ segs,
      hd.1 = ({ line_position := seg.line_position, geometry := seg.centroid } :
        BoundaryCentroidRow) := by
    obtain ⟨c, hc, hpair⟩ := List.mem_map.mp hhd
    obtain ⟨seg, hseg, rfl⟩ := List.mem_map.mp hc
    exact ⟨seg, hseg, by rw [← hpair]⟩
  refine ⟨b, hb, ?_, ?_⟩
  · unfold get_tide_query_locations
    rw [if_neg (by simp)]
    simp only [hcent]
    rw [hsort]
    simp only [List.take_succ_cons, List.take_zero, List.map_cons, List.map_nil, hbeq]
  · exact (classifySegments_mem_label ((pyMin catchment_coords).getD (0, 0))
      ((pyMax catchment_coords).getD (0, 0)) (adjPairs catchment_coords) segs hclass
      b hb).1

/-- C4 witness: the axis-aligned square catchment with corners (0,0) and
(2,2), fully inside regional coverage, with one coastline feature in reach. -/
theorem c4_tide_query_single_point_witness :
    ∃ b ∈ ([{ line_position := "bot", centroid := (1, 0), boundary := ((0, 0), (2, 0)) },
            { line_position := "right", centroid := (2, 1), boundary := ((2, 0), (2, 2)) },
            { line_position := "top", centroid := (1, 2), boundary := ((2, 2), (0, 2)) },
            { line_position := "left", centroid := (0, 1), boundary := ((0, 2), (0, 0)) }] :
        List BoundarySegment),
      @get_tide_query_locations Unit Unit
          (fun _ => [()]) (fun _ => ((0 : ℚ), (0 : ℚ))) (fun _ _ => 0) (fun _ _ => 0)
          (fun p => p) [((0 : ℚ), (0 : ℚ)), (2, 0), (2, 2), (0, 2), (0, 0)] [] [()] =
        Except.ok { rows := [{ position := b.line_position, geometry := b.centroid }],
                    crs := 4326 } ∧
      b.line_position ∈ (["left", "right", "bot", "top"] : List String) :=
  c4_tide_query_single_point (fun _ => [()]) (fun _ => ((0 : ℚ), (0 : ℚ)))
    (fun _ _ => 0) (fun _ _ => 0) (fun p => p)
    [((0 : ℚ), (0 : ℚ)), (2, 0), (2, 2), (0, 2), (0, 0)] [()]
    [{ line_position := "bot", centroid := (1, 0), boundary := ((0, 0), (2, 0)) },
     { line_position := "right", centroid := (2, 1), boundary := ((2, 0), (2, 2)) },
     { line_position := "top", centroid := (1, 2), boundary := ((2, 2), (0, 2)) },
     { line_position := "left", centroid := (0, 1), boundary := ((0, 2), (0, 0)) }]
    (by norm_num [get_catchment_boundary_info, classifySegments, adjPairs, pyMin,
      pyMax, pyMinStep, pyMaxStep, pyPairLt, List.foldl])
    (by simp) (by simp)

/-- Rebuilding a string from its character list is the identity. -/
theorem string_mk_data (s : String) : String.mk s.data = s := by
  cases s
  rfl

/-- Splitting a separator-free character list yields one piece. -/
theorem charListSplit_no_sep (sep : Char) (cs : List Char)
    (h : ∀ c ∈ cs, c ≠ sep) : charListSplit sep cs = [cs] := by
  induction cs with
  | nil => rfl
  | cons a rest ih =>
    have ha : a ≠ sep := h a (List.mem_cons_self a rest)
    have hrest := ih (fun c hc => h c (List.mem_cons_of_mem a hc))
    simp only [charListSplit, hrest, if_neg ha]

/-- Splitting past a separator that follows a separator-free block peels off
that block. -/
theorem charListSplit_append (sep : Char) (xs ys : List Char)
    (h : ∀ c ∈ xs, c ≠ sep) :
    charListSplit sep (xs ++ sep :: ys) = xs :: charListSplit sep ys := by
  induction xs with
  | nil => simp [charListSplit]
  | cons a rest ih =>
    have ha : a ≠ sep := h a (List.mem_cons_self a rest)
    have hrest := ih (fun c hc => h c (List.mem_cons_of_mem a hc))
    simp only [List.cons_append, charListSplit, List.append_eq, hrest, if_neg ha]

/-- A successful digit parse certifies every character is a digit. -/
theorem parseDigitsCore_digits (cs : List Char) :
    ∀ (acc n : Nat), parseDigitsCore acc cs = some n → ∀ c ∈ cs, c.isDigit = true := by
  induction cs with
  | nil =>
    intro acc n _ c hc
    cases hc
  | cons a rest ih =>
    intro acc n h c hc
    by_cases ha : a.isDigit
    · rcases List.mem_cons.mp hc with rfl | hc2
      · exact ha
      · have h2 : parseDigitsCore (acc * 10 + digitVal a) rest = some n := by
          rw [show parseDigitsCore acc (a :: rest) =
              (if a.isDigit then parseDigitsCore (acc * 10 + digitVal a) rest
               else none) from rfl, if_pos ha] at h
          exact h
        exact ih _ n h2 c hc2
    · rw [show parseDigitsCore acc (a :: rest) =
          (if a.isDigit then parseDigitsCore (acc * 10 + digitVal a) rest
           else none) from rfl, if_neg ha] at h
      cases h

/-- A successfully parsed numeral contains only digits. -/
theorem parseNatDigits_digits (cs : List Char) (n : Nat)
    (h : parseNatDigits cs = some n) : ∀ c ∈ cs, c.isDigit = true := by
  rcases cs with _ | ⟨a, rest⟩
  · intro c hc
    cases hc
  · exact parseDigitsCore_digits (a :: rest) 0 n h

/-- mdy_to_ymd reformats a parseable day month-abbreviation year text into the
zero-padded ISO form. -/
theorem mdy_to_ymd_formats (day month year : Nat) (dayStr monthStr yearStr : String)
    (hday : parseNatDigits dayStr.data = some day) (hdaylen : dayStr.data.length ≤ 2)
    (hmonth : monthIndex monthStr = some month) (hmsp : ∀ c ∈ monthStr.data, c ≠ ' ')
    (hyear : parseNatDigits yearStr.data = some year) (hyearlen : yearStr.data.length = 4)
    (h1 : 1 ≤ day) (h2 : day ≤ daysInMonth month year) (h3 : 1 ≤ year) :
    mdy_to_ymd (dayStr ++ " " ++ monthStr ++ " " ++ yearStr) =
      some (pad4 year ++ "-" ++ pad2 month ++ "-" ++ pad2 day) := by
  have hdsp : ∀ c ∈ dayStr.data, c ≠ ' ' := by
    intro c hc hsp
    have hd := parseNatDigits_digits dayStr.data day hday c hc
    rw [hsp] at hd
    exact absurd hd (by decide)
  have hysp : ∀ c ∈ yearStr.data, c ≠ ' ' := by
    intro c hc hsp
    have hd := parseNatDigits_digits yearStr.data year hyear c hc
    rw [hsp] at hd
    exact absurd hd (by decide)
  have hdata : (dayStr ++ " " ++ monthStr ++ " " ++ yearStr).data =
      dayStr.data ++ ' ' :: (monthStr.data ++ ' ' :: yearStr.data) := by
    simp [String.data_append]
  have hsplit : strSplitOnChar ' ' (dayStr ++ " " ++ monthStr ++ " " ++ yearStr) =
      [dayStr, monthStr, yearStr] := by
    unfold strSplitOnChar
    rw [hdata, charListSplit_append ' ' dayStr.data _ hdsp,
      charListSplit_append ' ' monthStr.data _ hmsp,
      charListSplit_no_sep ' ' yearStr.data hysp]
    simp [string_mk_data]
  unfold mdy_to_ymd
  rw [hsplit]
  simp only [hday, hmonth, hyear]
  rw [if_pos ⟨hdaylen, hyearlen, h1, h2, h3⟩]

/-- C9: urlModifiedDate, on a page whose table holds a th cell with text
exactly "Last updated" whose following td sibling reads "06 Aug 2021",
returns "2021-08-06"; and in general, for any page whose sibling cell holds a
parseable day month-abbreviation year text, the result is the same date
rewritten zero-padded as YYYY-MM-DD. -/
theorem c9_url_modified_date_conversion :
    urlModifiedDate
        (fun _ => [[{ tag := "th", text := "Last updated" },
                    { tag := "td", text := "06 Aug 2021" }]])
        "https://datasource.example" = Except.ok "2021-08-06" ∧
    (∀ (day month year : Nat) (dayStr monthStr yearStr url : String)
        (fetchPage : String → List (List HtmlCell)),
      parseNatDigits dayStr.data = some day →
      dayStr.data.length ≤ 2 →
      monthIndex monthStr = some month →
      (∀ c ∈ monthStr.data, c ≠ ' ') →
      parseNatDigits yearStr.data = some year →
      yearStr.data.length = 4 →
      1 ≤ day → day ≤ daysInMonth month year → 1 ≤ year →
      fetchPage url = [[{ tag := "th", text := "Last updated" },
                        { tag := "td",
                          text := dayStr ++ " " ++ monthStr ++ " " ++ yearStr }]] →
      urlModifiedDate fetchPage url =
        Except.ok (pad4 year ++ "-" ++ pad2 month ++ "-" ++ pad2 day)) := by
  constructor
  · rfl
  · intro day month year dayStr monthStr yearStr url fetchPage hday hdaylen hmonth
      hmsp hyear hyearlen h1 h2 h3 hpage
    unfold urlModifiedDate
    rw [hpage]
    simp [List.findSome?, cellsAfterLastUpdatedTh, List.find?,
      mdy_to_ymd_formats day month year dayStr monthStr yearStr hday hdaylen hmonth
        hmsp hyear hyearlen h1 h2 h3]

/-- C9 witness: "31 dec 2000" (lower-case month abbreviation, as strptime
accepts) becomes "2000-12-31". -/
theorem c9_url_modified_date_conversion_witness :
    urlModifiedDate
        (fun _ => [[{ tag := "th", text := "Last updated" },
                    { tag := "td", text := "31 dec 2000" }]]) "https://u.example" =
      Except.ok "2000-12-31" := by
  have h := c9_url_modified_date_conversion.2 31 12 2000 "31" "dec" "2000"
    "https://u.example"
    (fun _ => [[{ tag := "th", text := "Last updated" },
                { tag := "td", text := "31 dec 2000" }]])
    (by decide) (by decide) (by decide) (by decide) (by decide) (by decide)
    (by decide) (by decide) (by decide) (by decide)
  rw [h, show (pad4 2000 ++ "-" ++ pad2 12 ++ "-" ++ pad2 31) = "2000-12-31" from by decide]
